import Mathlib

/-!
Verification development for the `iced_audio` normalized-value engine and
drag-gesture state machine (`src/native/mod_range_input.rs`, `src/core/math.rs`).

Real numbers of the source (`f32`) are embedded as exact rationals `ℚ`; all
arithmetic in the claims under study is exact at these values.

External collaborators from the `iced_native` host UI library (hit-testing
rectangles, the click classifier `mouse::Click`, `keyboard::Modifiers`) are
modelled per the specification, which treats them as external inputs.
-/

namespace IcedAudio

/-- Modelled from the spec: the `Normal` type of `src/core/normal.rs` is not
present in the sources; per spec §3/§4.1 it wraps a scalar clamped into
`[0,1]` on construction, and `as_f32` reads that scalar back. -/
structure Normal where
  value : ℚ
  deriving DecidableEq, Repr

namespace Normal

/-- Modelled from the spec: `clamp(x)` returns `x` if `0<=x<=1`, else the
nearer bound. This is the conversion the source writes as `normal.into()`. -/
def fromRat (x : ℚ) : Normal :=
  ⟨if x < 0 then 0 else if x > 1 then 1 else x⟩

def as_f32 (n : Normal) : ℚ := n.value

end Normal

/-- Modelled from the spec: `NormalParam` of `src/core/normal_param.rs` is not
present in the sources; per spec §3 it carries the committed `value` and the
`default` restore target of one parameter. -/
structure NormalParam where
  value : Normal
  default : Normal
  deriving DecidableEq, Repr

/-- `iced_native::keyboard::Modifiers`: the four modifier flags. -/
structure Modifiers where
  shift : Bool
  control : Bool
  alt : Bool
  logo : Bool
  deriving DecidableEq, Repr

namespace Modifiers

/-- `Default::default()`: no modifier held. -/
def default : Modifiers := ⟨false, false, false, false⟩

/-- Modelled from the spec: `Modifiers::matches` lives in the external
`iced_native` library; spec §9 directs reading it as "all configured modifier
keys are currently held". (`matches` is a Lean keyword, hence the name.) -/
def matchesKeys (pressed target : Modifiers) : Bool :=
  (!target.shift || pressed.shift) && (!target.control || pressed.control) &&
    (!target.alt || pressed.alt) && (!target.logo || pressed.logo)

end Modifiers

/-- `iced::Point`: a cursor position. -/
structure Point where
  x : ℚ
  y : ℚ
  deriving DecidableEq, Repr

/-- `iced::Rectangle`: the widget bounds produced by `layout.bounds()`. -/
structure Rectangle where
  x : ℚ
  y : ℚ
  width : ℚ
  height : ℚ
  deriving DecidableEq, Repr

/-- Modelled from the spec: hit-testing (`Rectangle::contains`) belongs to the
external host layer; a point is inside when it lies within the rectangle. -/
def Rectangle.contains (r : Rectangle) (p : Point) : Bool :=
  decide (r.x ≤ p.x) && decide (p.x ≤ r.x + r.width) &&
    decide (r.y ≤ p.y) && decide (p.y ≤ r.y + r.height)

/-- The click kinds produced by the external classifier (`mouse::click::Kind`). -/
inductive ClickKind where
  | Single
  | Double
  | Triple
  deriving DecidableEq, Repr

/-- Modelled from the spec: `mouse::Click` is produced by the external
time-and-distance click classifier; the controller observes only its kind and
stores the record for the next classification. -/
structure Click where
  kind : ClickKind
  position : Point
  deriving DecidableEq, Repr

/-- The external click classifier `mouse::Click::new`, treated per spec §4.2 as
an external collaborator: it maps the press position and the previous click
record to a classified click. -/
def ClickNew : Type := Point → Option Click → Click

/-- `mouse::Button`. -/
inductive MouseButton where
  | Left
  | Right
  | Middle
  deriving DecidableEq, Repr

/-- The mouse events `on_event` distinguishes. The cursor position travels in
the separate `cursor_position` argument, exactly as in the source, which
ignores the fields of `CursorMoved`. -/
inductive MouseEvent where
  | CursorMoved
  | ButtonPressed (button : MouseButton)
  | ButtonReleased (button : MouseButton)
  | OtherMouse
  deriving DecidableEq, Repr

/-- The keyboard events `on_event` distinguishes; each key event carries the
host's modifier snapshot. -/
inductive KeyboardEvent where
  | KeyPressed (modifiers : Modifiers)
  | KeyReleased (modifiers : Modifiers)
  | OtherKeyboard
  deriving DecidableEq, Repr

/-- `iced_native::Event`, restricted to the constructors `on_event` matches. -/
inductive Event where
  | Mouse (e : MouseEvent)
  | Keyboard (e : KeyboardEvent)
  | OtherEvent
  deriving DecidableEq, Repr

/-- `event::Status`. -/
inductive Status where
  | Captured
  | Ignored
  deriving DecidableEq, Repr

/-- The local `State` of a `ModRangeInput` (gesture state). -/
structure State where
  normal_param : NormalParam
  is_dragging : Bool
  prev_drag_y : ℚ
  continuous_normal : ℚ
  pressed_modifiers : Modifiers
  last_click : Option Click
  deriving DecidableEq, Repr

namespace State

/-- `State::new`. -/
def new (normal_param : NormalParam) : State :=
  { normal_param := normal_param
    is_dragging := false
    prev_drag_y := 0
    continuous_normal := normal_param.value.as_f32
    pressed_modifiers := Modifiers.default
    last_click := none }

/-- `State::set`. -/
def set (s : State) (normal : Normal) : State :=
  { s with
    normal_param := { s.normal_param with value := normal }
    continuous_normal := normal.value }

end State

def DEFAULT_SCALAR : ℚ := 0.00385 / 2

def DEFAULT_MODIFIER_SCALAR : ℚ := 0.02

/-- The configuration fields of `ModRangeInput` that `on_event` reads. The
boxed `on_change` closure is represented by emitting the `Normal` values
themselves: the source pushes `on_change(value)` onto `messages`, so the list
of emitted `Normal`s determines the list of pushed messages. -/
structure ModRangeInput where
  scalar : ℚ
  modifier_scalar : ℚ
  modifier_keys : Modifiers
  deriving DecidableEq, Repr

/-- `ModRangeInput::new`, restricted to the fields `on_event` reads. -/
def ModRangeInput.new : ModRangeInput :=
  { scalar := DEFAULT_SCALAR
    modifier_scalar := DEFAULT_MODIFIER_SCALAR
    modifier_keys := { Modifiers.default with control := true } }

/-- The outcome of one `on_event` call: the updated state, the `Normal` values
pushed through `on_change` onto `messages` (in order), and the returned
status. -/
structure EventResult where
  state : State
  messages : List Normal
  status : Status
  deriving DecidableEq, Repr

/-- `ModRangeInput::on_event`, translated branch for branch from
`src/native/mod_range_input.rs` lines 193–294. `clickNew` is the external
classifier `mouse::Click::new`. -/
def on_event (w : ModRangeInput) (clickNew : ClickNew) (event : Event)
    (bounds : Rectangle) (cursor_position : Point) (s : State) : EventResult :=
  match event with
  | Event.Mouse mouse_event =>
    match mouse_event with
    | MouseEvent.CursorMoved =>
      if s.is_dragging ∧ cursor_position.y ≠ -1 then
        let movement_y := (cursor_position.y - s.prev_drag_y) * w.scalar
        let movement_y :=
          if s.pressed_modifiers.matchesKeys w.modifier_keys then
            movement_y * w.modifier_scalar
          else movement_y
        let normal := s.continuous_normal - movement_y
        let normal := if normal < 0 then 0 else if normal > 1 then 1 else normal
        let s :=
          { s with
            continuous_normal := normal
            prev_drag_y := cursor_position.y
            normal_param := { s.normal_param with value := Normal.fromRat normal } }
        { state := s
          messages := [s.normal_param.value]
          status := Status.Captured }
      else
        { state := s, messages := [], status := Status.Ignored }
    | MouseEvent.ButtonPressed MouseButton.Left =>
      if bounds.contains cursor_position then
        let click := clickNew cursor_position s.last_click
        let (s, msgs) :=
          match click.kind with
          | ClickKind.Single =>
            ({ s with is_dragging := true, prev_drag_y := cursor_position.y },
              ([] : List Normal))
          | _ =>
            let s :=
              { s with
                is_dragging := false
                normal_param := { s.normal_param with value := s.normal_param.default } }
            (s, [s.normal_param.value])
        let s := { s with last_click := some click }
        { state := s, messages := msgs, status := Status.Captured }
      else
        { state := s, messages := [], status := Status.Ignored }
    | MouseEvent.ButtonReleased MouseButton.Left =>
      { state :=
          { s with
            is_dragging := false
            continuous_normal := s.normal_param.value.as_f32 }
        messages := []
        status := Status.Captured }
    | _ => { state := s, messages := [], status := Status.Ignored }
  | Event.Keyboard keyboard_event =>
    match keyboard_event with
    | KeyboardEvent.KeyPressed modifiers =>
      { state := { s with pressed_modifiers := modifiers }
        messages := []
        status := Status.Captured }
    | KeyboardEvent.KeyReleased modifiers =>
      { state := { s with pressed_modifiers := modifiers }
        messages := []
        status := Status.Captured }
    | _ => { state := s, messages := [], status := Status.Ignored }
  | _ => { state := s, messages := [], status := Status.Ignored }

/-- One delivered event together with the host-supplied widget bounds and
cursor position of that delivery. -/
structure Input where
  event : Event
  bounds : Rectangle
  cursor : Point

/-- Deliver a list of inputs in order, threading the state and collecting the
values emitted through the change callback. -/
def processEvents (w : ModRangeInput) (clickNew : ClickNew) :
    State → List Input → State × List Normal
  | s, [] => (s, [])
  | s, i :: rest =>
    let r := on_event w clickNew i.event i.bounds i.cursor s
    let (s', msgs) := processEvents w clickNew r.state rest
    (s', r.messages ++ msgs)

/-! ### Concrete fixtures used by scenario theorems and witnesses -/

/-- A classifier that reports every click as single (external collaborator). -/
def cnSingle : ClickNew := fun p _ => ⟨ClickKind.Single, p⟩

/-- A classifier that reports every click as double (external collaborator). -/
def cnDouble : ClickNew := fun p _ => ⟨ClickKind.Double, p⟩

/-- A parameter with committed value `0.5` and default `0.3`. -/
def param0 : NormalParam := ⟨⟨1/2⟩, ⟨3/10⟩⟩

def state0 : State := State.new param0

def bounds0 : Rectangle := ⟨0, 0, 200, 200⟩

def moveEvent : Event := Event.Mouse MouseEvent.CursorMoved

def pressLeftEvent : Event := Event.Mouse (MouseEvent.ButtonPressed MouseButton.Left)

def releaseLeftEvent : Event := Event.Mouse (MouseEvent.ButtonReleased MouseButton.Left)

def pressLeftAt (y : ℚ) : Input := ⟨pressLeftEvent, bounds0, ⟨10, y⟩⟩

def cursorMoveTo (y : ℚ) : Input := ⟨moveEvent, bounds0, ⟨10, y⟩⟩

def releaseLeft : Input := ⟨releaseLeftEvent, bounds0, ⟨10, 10⟩⟩

/-- The state reached from `state0` by a single-click left press at `y = 100`:
a drag in progress with `prev_drag_y = 100` and `continuous_normal = 0.5`. -/
def dragState0 : State :=
  (processEvents ModRangeInput.new cnSingle state0 [pressLeftAt 100]).1

/-! ### Helper lemmas -/

/-- The clamp-to-`[0,1]` if-chain of `on_event` always lands in `[0,1]`. -/
theorem clamp_mem (x : ℚ) :
    0 ≤ (if x < 0 then (0:ℚ) else if x > 1 then 1 else x) ∧
      (if x < 0 then (0:ℚ) else if x > 1 then 1 else x) ≤ 1 := by
  split_ifs with h1 h2
  · exact ⟨le_rfl, zero_le_one⟩
  · exact ⟨zero_le_one, le_rfl⟩
  · exact ⟨not_lt.mp h1, not_lt.mp h2⟩

/-- `Normal.fromRat` is the identity on values already in `[0,1]`. -/
theorem Normal.fromRat_eq_of_mem (x : ℚ) (h0 : 0 ≤ x) (h1 : x ≤ 1) :
    Normal.fromRat x = ⟨x⟩ := by
  unfold Normal.fromRat
  rw [if_neg (not_lt.mpr h0), if_neg (not_lt.mpr h1)]

theorem Normal.fromRat_mem (x : ℚ) :
    0 ≤ (Normal.fromRat x).value ∧ (Normal.fromRat x).value ≤ 1 := by
  unfold Normal.fromRat
  split_ifs with h1 h2
  · exact ⟨le_rfl, zero_le_one⟩
  · exact ⟨zero_le_one, le_rfl⟩
  · exact ⟨not_lt.mp h1, not_lt.mp h2⟩

/-- One `on_event` call keeps the committed value in `[0,1]`, never changes the
default, and pushes only in-range values through the change callback. -/
theorem on_event_preserves_range (w : ModRangeInput) (cn : ClickNew) (e : Event)
    (b : Rectangle) (pos : Point) (s : State)
    (hv : 0 ≤ s.normal_param.value.value ∧ s.normal_param.value.value ≤ 1)
    (hd : 0 ≤ s.normal_param.default.value ∧ s.normal_param.default.value ≤ 1) :
    (0 ≤ (on_event w cn e b pos s).state.normal_param.value.value ∧
        (on_event w cn e b pos s).state.normal_param.value.value ≤ 1) ∧
    (on_event w cn e b pos s).state.normal_param.default = s.normal_param.default ∧
    ∀ n ∈ (on_event w cn e b pos s).messages, 0 ≤ n.value ∧ n.value ≤ 1 := by
  match e with
  | Event.OtherEvent => exact ⟨hv, rfl, fun n hn => absurd hn (List.not_mem_nil n)⟩
  | Event.Keyboard ke =>
    cases ke <;> exact ⟨hv, rfl, fun n hn => absurd hn (List.not_mem_nil n)⟩
  | Event.Mouse me =>
    match me with
    | MouseEvent.OtherMouse =>
      exact ⟨hv, rfl, fun n hn => absurd hn (List.not_mem_nil n)⟩
    | MouseEvent.CursorMoved =>
      by_cases hdrag : s.is_dragging ∧ pos.y ≠ -1
      · simp only [on_event, if_pos hdrag]
        refine ⟨Normal.fromRat_mem _, trivial, ?_⟩
        intro n hn
        simp only [List.mem_singleton] at hn
        subst hn
        exact Normal.fromRat_mem _
      · simp only [on_event, if_neg hdrag]
        exact ⟨hv, trivial, fun n hn => absurd hn (List.not_mem_nil n)⟩
    | MouseEvent.ButtonPressed btn =>
      match btn with
      | MouseButton.Right =>
        exact ⟨hv, rfl, fun n hn => absurd hn (List.not_mem_nil n)⟩
      | MouseButton.Middle =>
        exact ⟨hv, rfl, fun n hn => absurd hn (List.not_mem_nil n)⟩
      | MouseButton.Left =>
        by_cases hb : b.contains pos
        · simp only [on_event, if_pos hb]
          cases hk : (cn pos s.last_click).kind
          · simp only [hk]
            exact ⟨hv, trivial, fun n hn => absurd hn (List.not_mem_nil n)⟩
          · simp only [hk]
            refine ⟨hd, trivial, ?_⟩
            intro n hn
            simp only [List.mem_singleton] at hn
            subst hn
            exact hd
          · simp only [hk]
            refine ⟨hd, trivial, ?_⟩
            intro n hn
            simp only [List.mem_singleton] at hn
            subst hn
            exact hd
        · simp only [on_event, if_neg hb]
          exact ⟨hv, trivial, fun n hn => absurd hn (List.not_mem_nil n)⟩
    | MouseEvent.ButtonReleased btn =>
      cases btn <;> exact ⟨hv, rfl, fun n hn => absurd hn (List.not_mem_nil n)⟩

/-- Any finite delivered event sequence keeps the committed value in `[0,1]`
and emits only in-range values, provided the state starts with value and
default in range. -/
theorem processEvents_preserves_range (w : ModRangeInput) (cn : ClickNew) :
    ∀ (inputs : List Input) (s : State),
    0 ≤ s.normal_param.value.value → s.normal_param.value.value ≤ 1 →
    0 ≤ s.normal_param.default.value → s.normal_param.default.value ≤ 1 →
    (0 ≤ (processEvents w cn s inputs).1.normal_param.value.value ∧
        (processEvents w cn s inputs).1.normal_param.value.value ≤ 1) ∧
    ∀ n ∈ (processEvents w cn s inputs).2, 0 ≤ n.value ∧ n.value ≤ 1 := by
  intro inputs
  induction inputs with
  | nil =>
    intro s hv0 hv1 _ _
    exact ⟨⟨hv0, hv1⟩, fun n hn => by simp [processEvents] at hn⟩
  | cons i rest ih =>
    intro s hv0 hv1 hd0 hd1
    have hstep := on_event_preserves_range w cn i.event i.bounds i.cursor s
      ⟨hv0, hv1⟩ ⟨hd0, hd1⟩
    have hrest := ih (on_event w cn i.event i.bounds i.cursor s).state
      hstep.1.1 hstep.1.2 (hstep.2.1 ▸ hd0) (hstep.2.1 ▸ hd1)
    refine ⟨?_, ?_⟩
    · simpa [processEvents] using hrest.1
    · intro n hn
      simp only [processEvents, List.mem_append] at hn
      rcases hn with hn | hn
      · exact hstep.2.2 n hn
      · exact hrest.2 n hn

/-! ### Claim theorems -/

/-- Claim C1, counterexample: the claim says a pointer-move stores the new
accumulated value into `continuous_normal` without clamping, so that it can
exceed `1.2`. In the code the clamp happens before the store: dragging from
`y = 100` to `y = -300` makes the unclamped accumulated value `1.27 > 1.2`,
yet the stored `continuous_normal` is `1`, not `1.27`. -/
theorem unclamped_accumulation_refuted :
    state0.continuous_normal - ((-300 : ℚ) - 100) * DEFAULT_SCALAR = 1.27 ∧
    (1.27 : ℚ) > 1.2 ∧
    (processEvents ModRangeInput.new cnSingle state0
        [pressLeftAt 100, cursorMoveTo (-300)]).1.continuous_normal = 1 ∧
    (processEvents ModRangeInput.new cnSingle state0
        [pressLeftAt 100, cursorMoveTo (-300)]).1.continuous_normal ≠ 1.27 := by
  norm_num [processEvents, on_event, pressLeftAt, cursorMoveTo, pressLeftEvent, moveEvent,
    bounds0, state0, param0, State.new, ModRangeInput.new, cnSingle, Rectangle.contains,
    DEFAULT_SCALAR, DEFAULT_MODIFIER_SCALAR, Modifiers.matchesKeys, Modifiers.default,
    Normal.fromRat, Normal.as_f32]

/-- Claim C1, amended: while a drag is in progress, each pointer-move stores
the CLAMPED new accumulated value into `continuous_normal`, so it always stays
in `[0,1]` and always equals the committed value; on button release,
`continuous_normal` is set to the committed value. -/
theorem move_clamps_accumulated_before_store (w : ModRangeInput) (cn : ClickNew)
    (b : Rectangle) (pos : Point) (s : State)
    (hd : s.is_dragging = true) (hy : pos.y ≠ -1) :
    (let movement := (pos.y - s.prev_drag_y) * w.scalar
     let movement := if s.pressed_modifiers.matchesKeys w.modifier_keys then
        movement * w.modifier_scalar else movement
     let raw := s.continuous_normal - movement
     (on_event w cn moveEvent b pos s).state.continuous_normal =
        (if raw < 0 then 0 else if raw > 1 then 1 else raw)) ∧
    (0 ≤ (on_event w cn moveEvent b pos s).state.continuous_normal ∧
      (on_event w cn moveEvent b pos s).state.continuous_normal ≤ 1) ∧
    (on_event w cn moveEvent b pos s).state.normal_param.value.value =
      (on_event w cn moveEvent b pos s).state.continuous_normal ∧
    (on_event w cn releaseLeftEvent b pos s).state.continuous_normal =
      s.normal_param.value.value := by
  have hdrag : s.is_dragging = true ∧ pos.y ≠ -1 := ⟨hd, hy⟩
  simp only [moveEvent, releaseLeftEvent, on_event, if_pos hdrag]
  refine ⟨trivial, Normal.fromRat_mem _, ?_, rfl⟩
  have hmem := clamp_mem
    (s.continuous_normal -
      if s.pressed_modifiers.matchesKeys w.modifier_keys then
        (pos.y - s.prev_drag_y) * w.scalar * w.modifier_scalar
      else (pos.y - s.prev_drag_y) * w.scalar)
  rw [Normal.fromRat_eq_of_mem _ hmem.1 hmem.2]

/-- Claim C1, witness: instantiates the amended theorem at the concrete
dragging state reached by pressing at `y = 100`, moving to `y = -300`. -/
theorem move_clamps_accumulated_before_store_witness :
    0 ≤ (on_event ModRangeInput.new cnSingle moveEvent bounds0 ⟨10, -300⟩
        dragState0).state.continuous_normal ∧
    (on_event ModRangeInput.new cnSingle moveEvent bounds0 ⟨10, -300⟩
        dragState0).state.continuous_normal ≤ 1 :=
  (move_clamps_accumulated_before_store ModRangeInput.new cnSingle bounds0
    ⟨10, -300⟩ dragState0
    (by norm_num [dragState0, processEvents, on_event, pressLeftAt, pressLeftEvent,
      bounds0, state0, param0, State.new, ModRangeInput.new, cnSingle, Rectangle.contains])
    (by norm_num)).2.1

/-- Claim C2: for every finite sequence of input events, if the initial and
default values are in `[0,1]`, then the committed value and every value passed
to the change callback stay in `[0,1]`. (The embedding is total over exact
rationals, so no panic or NaN can arise in the model.) -/
theorem committed_and_emitted_values_in_unit_range (w : ModRangeInput)
    (cn : ClickNew) (p : NormalParam) (inputs : List Input)
    (hv0 : 0 ≤ p.value.value) (hv1 : p.value.value ≤ 1)
    (hd0 : 0 ≤ p.default.value) (hd1 : p.default.value ≤ 1) :
    (0 ≤ (processEvents w cn (State.new p) inputs).1.normal_param.value.value ∧
        (processEvents w cn (State.new p) inputs).1.normal_param.value.value ≤ 1) ∧
    ∀ n ∈ (processEvents w cn (State.new p) inputs).2, 0 ≤ n.value ∧ n.value ≤ 1 :=
  processEvents_preserves_range w cn inputs (State.new p) hv0 hv1 hd0 hd1

/-- Claim C2, witness: the range invariant instantiated at a concrete
parameter and a concrete press-then-drag event sequence. -/
theorem committed_and_emitted_values_in_unit_range_witness :
    0 ≤ (processEvents ModRangeInput.new cnSingle (State.new param0)
        [pressLeftAt 100, cursorMoveTo 50]).1.normal_param.value.value ∧
    (processEvents ModRangeInput.new cnSingle (State.new param0)
        [pressLeftAt 100, cursorMoveTo 50]).1.normal_param.value.value ≤ 1 :=
  (committed_and_emitted_values_in_unit_range ModRangeInput.new cnSingle param0
    [pressLeftAt 100, cursorMoveTo 50]
    (by norm_num [param0]) (by norm_num [param0])
    (by norm_num [param0]) (by norm_num [param0])).1

/-- Claim C3: simple-drag scenario. With committed value `0.5`, a single-click
left press inside bounds at `y = 100` enters Dragging with reference point
`100`; a move to `y = 50` at the default scalar `0.001925` with no modifiers
computes delta `(50-100)*0.001925 = -0.09625`, stores accumulated value
`0.59625`, advances the reference point to `50`, and emits `0.59625`. -/
theorem simple_drag_scenario :
    (on_event ModRangeInput.new cnSingle pressLeftEvent bounds0 ⟨10, 100⟩
        state0).state.is_dragging = true ∧
    (on_event ModRangeInput.new cnSingle pressLeftEvent bounds0 ⟨10, 100⟩
        state0).state.prev_drag_y = 100 ∧
    ((50 : ℚ) - 100) * DEFAULT_SCALAR = -0.09625 ∧
    (let r2 := on_event ModRangeInput.new cnSingle moveEvent bounds0 ⟨10, 50⟩
        (on_event ModRangeInput.new cnSingle pressLeftEvent bounds0 ⟨10, 100⟩ state0).state
     r2.state.continuous_normal = 0.59625 ∧ r2.state.prev_drag_y = 50 ∧
     r2.messages = [⟨0.59625⟩] ∧ r2.state.normal_param.value.value = 0.59625) := by
  norm_num [on_event, pressLeftEvent, moveEvent, bounds0, state0, param0, State.new,
    ModRangeInput.new, cnSingle, Rectangle.contains, DEFAULT_SCALAR,
    DEFAULT_MODIFIER_SCALAR, Modifiers.matchesKeys, Modifiers.default,
    Normal.fromRat, Normal.as_f32]

/-- Claim C4, counterexample: the claim says a multi-click press synchronizes
`continuous_normal` to the default value. In the code it does not: with
committed `0.5` and default `0.3`, a double-click press sets the committed
value to `0.3` but leaves `continuous_normal` at `0.5`. -/
theorem multi_click_accumulator_sync_refuted :
    (on_event ModRangeInput.new cnDouble pressLeftEvent bounds0 ⟨10, 100⟩
        state0).state.normal_param.value.value = 3/10 ∧
    (on_event ModRangeInput.new cnDouble pressLeftEvent bounds0 ⟨10, 100⟩
        state0).state.continuous_normal = 1/2 ∧
    (on_event ModRangeInput.new cnDouble pressLeftEvent bounds0 ⟨10, 100⟩
        state0).state.continuous_normal ≠
      (on_event ModRangeInput.new cnDouble pressLeftEvent bounds0 ⟨10, 100⟩
        state0).state.normal_param.default.value := by
  norm_num [on_event, pressLeftEvent, bounds0, state0, param0, State.new,
    ModRangeInput.new, cnDouble, Rectangle.contains, Normal.as_f32]

/-- Claim C4, amended: for every left press inside bounds classified as
multi-click, regardless of current state, the drag is cancelled (Idle), the
committed value is set to the default, and the change callback is emitted
exactly once with the default value — but `continuous_normal` is left
unchanged (it is resynchronized only at the following button release). -/
theorem multi_click_resets_to_default (w : ModRangeInput) (cn : ClickNew)
    (b : Rectangle) (pos : Point) (s : State)
    (hb : b.contains pos = true)
    (hk : (cn pos s.last_click).kind ≠ ClickKind.Single) :
    (on_event w cn pressLeftEvent b pos s).state.is_dragging = false ∧
    (on_event w cn pressLeftEvent b pos s).state.normal_param.value =
      s.normal_param.default ∧
    (on_event w cn pressLeftEvent b pos s).messages = [s.normal_param.default] ∧
    (on_event w cn pressLeftEvent b pos s).state.continuous_normal =
      s.continuous_normal ∧
    (on_event w cn pressLeftEvent b pos s).state.last_click =
      some (cn pos s.last_click) ∧
    (on_event w cn pressLeftEvent b pos s).status = Status.Captured := by
  cases hkind : (cn pos s.last_click).kind
  · exact absurd hkind hk
  · simp [pressLeftEvent, on_event, hb, hkind]
  · simp [pressLeftEvent, on_event, hb, hkind]

/-- Claim C4, witness: the amended multi-click behaviour at a concrete
double-click press on `state0`. -/
theorem multi_click_resets_to_default_witness :
    (on_event ModRangeInput.new cnDouble pressLeftEvent bounds0 ⟨10, 100⟩
        state0).state.is_dragging = false ∧
    (on_event ModRangeInput.new cnDouble pressLeftEvent bounds0 ⟨10, 100⟩
        state0).state.normal_param.value = state0.normal_param.default ∧
    (on_event ModRangeInput.new cnDouble pressLeftEvent bounds0 ⟨10, 100⟩
        state0).messages = [state0.normal_param.default] ∧
    (on_event ModRangeInput.new cnDouble pressLeftEvent bounds0 ⟨10, 100⟩
        state0).state.continuous_normal = state0.continuous_normal ∧
    (on_event ModRangeInput.new cnDouble pressLeftEvent bounds0 ⟨10, 100⟩
        state0).state.last_click = some (cnDouble ⟨10, 100⟩ state0.last_click) ∧
    (on_event ModRangeInput.new cnDouble pressLeftEvent bounds0 ⟨10, 100⟩
        state0).status = Status.Captured :=
  multi_click_resets_to_default ModRangeInput.new cnDouble bounds0 ⟨10, 100⟩ state0
    (by norm_num [bounds0, Rectangle.contains]) (by decide)

/-- Claim C5, counterexample: the claim says a move whose y-coordinate equals
the current drag reference point is ignored with no callback invocation. In
the code such a move IS processed: dragging with reference point `100`, a move
to `y = 100` pushes the (unchanged) committed value `0.5` through the callback
and returns Captured. -/
theorem stationary_move_no_callback_refuted :
    dragState0.prev_drag_y = 100 ∧
    (on_event ModRangeInput.new cnSingle moveEvent bounds0 ⟨10, 100⟩
        dragState0).messages = [⟨1/2⟩] ∧
    (on_event ModRangeInput.new cnSingle moveEvent bounds0 ⟨10, 100⟩
        dragState0).messages ≠ [] ∧
    (on_event ModRangeInput.new cnSingle moveEvent bounds0 ⟨10, 100⟩
        dragState0).status = Status.Captured := by
  norm_num [dragState0, processEvents, on_event, pressLeftAt, pressLeftEvent, moveEvent,
    bounds0, state0, param0, State.new, ModRangeInput.new, cnSingle, Rectangle.contains,
    DEFAULT_SCALAR, DEFAULT_MODIFIER_SCALAR, Modifiers.matchesKeys, Modifiers.default,
    Normal.fromRat, Normal.as_f32]

/-- Claim C5, amended: while Dragging, a move carrying the sentinel
`y = -1.0` is ignored (no state change, no callback, Ignored status); a move
whose y-coordinate equals the current reference point is processed normally:
when the accumulator is in `[0,1]` and in sync with the committed value it
leaves the state unchanged but re-emits the committed value (Captured). -/
theorem sentinel_move_ignored_stationary_move_emits (w : ModRangeInput)
    (cn : ClickNew) (b : Rectangle) (pos : Point) (s : State)
    (hd : s.is_dragging = true) :
    (pos.y = -1 →
      on_event w cn moveEvent b pos s = ⟨s, [], Status.Ignored⟩) ∧
    (pos.y ≠ -1 → pos.y = s.prev_drag_y →
      0 ≤ s.continuous_normal → s.continuous_normal ≤ 1 →
      s.normal_param.value = ⟨s.continuous_normal⟩ →
      on_event w cn moveEvent b pos s =
        ⟨s, [s.normal_param.value], Status.Captured⟩) := by
  constructor
  · intro hy
    have hneg : ¬(s.is_dragging = true ∧ pos.y ≠ -1) := fun h => h.2 hy
    simp only [moveEvent, on_event, if_neg hneg]
  · intro hy hyy h0 h1 hv
    have hdrag : s.is_dragging = true ∧ pos.y ≠ -1 := ⟨hd, hy⟩
    simp only [moveEvent, on_event, if_pos hdrag]
    have hm : (pos.y - s.prev_drag_y) * w.scalar = 0 := by
      rw [hyy, sub_self, zero_mul]
    rw [hm]
    simp only [zero_mul, ite_self, sub_zero]
    rw [if_neg (not_lt.mpr h0), if_neg (not_lt.mpr h1)]
    rw [Normal.fromRat_eq_of_mem _ h0 h1, ← hv, hyy]

/-- Claim C5, witness: both amended cases at the concrete dragging state
`dragState0` — a sentinel move at `y = -1` and a stationary move at
`y = 100`. -/
theorem sentinel_move_ignored_stationary_move_emits_witness :
    on_event ModRangeInput.new cnSingle moveEvent bounds0 ⟨10, -1⟩ dragState0 =
      ⟨dragState0, [], Status.Ignored⟩ ∧
    on_event ModRangeInput.new cnSingle moveEvent bounds0 ⟨10, 100⟩ dragState0 =
      ⟨dragState0, [dragState0.normal_param.value], Status.Captured⟩ :=
  ⟨(sentinel_move_ignored_stationary_move_emits ModRangeInput.new cnSingle bounds0
      ⟨10, -1⟩ dragState0
      (by norm_num [dragState0, processEvents, on_event, pressLeftAt, pressLeftEvent,
        bounds0, state0, param0, State.new, ModRangeInput.new, cnSingle,
        Rectangle.contains])).1 rfl,
   (sentinel_move_ignored_stationary_move_emits ModRangeInput.new cnSingle bounds0
      ⟨10, 100⟩ dragState0
      (by norm_num [dragState0, processEvents, on_event, pressLeftAt, pressLeftEvent,
        bounds0, state0, param0, State.new, ModRangeInput.new, cnSingle,
        Rectangle.contains])).2
    (by norm_num)
    (by norm_num [dragState0, processEvents, on_event, pressLeftAt, pressLeftEvent,
        bounds0, state0, param0, State.new, ModRangeInput.new, cnSingle,
        Rectangle.contains])
    (by norm_num [dragState0, processEvents, on_event, pressLeftAt, pressLeftEvent,
        bounds0, state0, param0, State.new, ModRangeInput.new, cnSingle,
        Rectangle.contains, Normal.as_f32])
    (by norm_num [dragState0, processEvents, on_event, pressLeftAt, pressLeftEvent,
        bounds0, state0, param0, State.new, ModRangeInput.new, cnSingle,
        Rectangle.contains, Normal.as_f32])
    (by norm_num [dragState0, processEvents, on_event, pressLeftAt, pressLeftEvent,
        bounds0, state0, param0, State.new, ModRangeInput.new, cnSingle,
        Rectangle.contains, Normal.as_f32, Normal.mk.injEq])⟩

/-- Claim C6, counterexample: the claim says releasing while already Idle
changes no field, for every reachable Idle state. The Idle state reached by a
double-click press (committed reset to `0.3`, accumulator still `0.5`) is
changed by a release: `continuous_normal` is resynchronized from `0.5` to
`0.3`. -/
theorem release_while_idle_noop_refuted :
    (processEvents ModRangeInput.new cnDouble state0 [pressLeftAt 100]).1.is_dragging
      = false ∧
    (on_event ModRangeInput.new cnDouble releaseLeftEvent bounds0 ⟨10, 10⟩
      (processEvents ModRangeInput.new cnDouble state0 [pressLeftAt 100]).1).messages
      = [] ∧
    (on_event ModRangeInput.new cnDouble releaseLeftEvent bounds0 ⟨10, 10⟩
      (processEvents ModRangeInput.new cnDouble state0 [pressLeftAt 100]).1).state ≠
      (processEvents ModRangeInput.new cnDouble state0 [pressLeftAt 100]).1 ∧
    (processEvents ModRangeInput.new cnDouble state0 [pressLeftAt 100]).1.continuous_normal
      = 1/2 ∧
    (on_event ModRangeInput.new cnDouble releaseLeftEvent bounds0 ⟨10, 10⟩
      (processEvents ModRangeInput.new cnDouble state0 [pressLeftAt 100]).1).state.continuous_normal
      = 3/10 := by
  norm_num [processEvents, on_event, pressLeftAt, pressLeftEvent, releaseLeftEvent,
    bounds0, state0, param0, State.new, ModRangeInput.new, cnDouble, Rectangle.contains,
    Normal.as_f32, State.mk.injEq]

/-- Claim C6, amended: releasing the primary button while Idle invokes no
callback and leaves every field unchanged except that `continuous_normal` is
resynchronized to the committed value; it is a complete no-op exactly when the
accumulator already equals the committed value (which fails in Idle states
reached by a multi-click reset). -/
theorem release_while_idle_resyncs_accumulator (w : ModRangeInput)
    (cn : ClickNew) (b : Rectangle) (pos : Point) (s : State)
    (hd : s.is_dragging = false) :
    on_event w cn releaseLeftEvent b pos s =
      ⟨{ s with continuous_normal := s.normal_param.value.value }, [],
        Status.Captured⟩ ∧
    (s.continuous_normal = s.normal_param.value.value →
      on_event w cn releaseLeftEvent b pos s = ⟨s, [], Status.Captured⟩) := by
  obtain ⟨np, idrag, py, cont, mods, lc⟩ := s
  simp only at hd
  subst hd
  constructor
  · rfl
  · intro h
    simp only at h
    subst h
    rfl

/-- Claim C6, witness: releasing on the freshly-constructed Idle `state0`
(whose accumulator equals its committed value) is a complete no-op. -/
theorem release_while_idle_resyncs_accumulator_witness :
    on_event ModRangeInput.new cnSingle releaseLeftEvent bounds0 ⟨10, 10⟩ state0 =
      ⟨state0, [], Status.Captured⟩ :=
  (release_while_idle_resyncs_accumulator ModRangeInput.new cnSingle bounds0
    ⟨10, 10⟩ state0 rfl).2
    (by norm_num [state0, param0, State.new, Normal.as_f32])

/-- Claim C7: modifier fine-mode scenario. Same setup as the simple drag but
with Control held (matching the default modifier set) and the default
`modifier_scalar = 0.02`: the delta is scaled to `-0.09625 * 0.02 = -0.001925`
(only the delta is scaled) and the emitted committed value is `0.501925`. -/
theorem modifier_fine_mode_scenario :
    ((50 : ℚ) - 100) * DEFAULT_SCALAR * DEFAULT_MODIFIER_SCALAR = -0.001925 ∧
    (let r0 := on_event ModRangeInput.new cnSingle
        (Event.Keyboard (KeyboardEvent.KeyPressed ⟨false, true, false, false⟩))
        bounds0 ⟨10, 10⟩ state0
     let r1 := on_event ModRangeInput.new cnSingle pressLeftEvent bounds0 ⟨10, 100⟩
        r0.state
     let r2 := on_event ModRangeInput.new cnSingle moveEvent bounds0 ⟨10, 50⟩ r1.state
     r0.state.pressed_modifiers.matchesKeys ModRangeInput.new.modifier_keys = true ∧
     r2.state.continuous_normal = 0.501925 ∧
     r2.messages = [⟨0.501925⟩] ∧
     r2.state.normal_param.value.value = 0.501925) := by
  norm_num [on_event, pressLeftEvent, moveEvent, bounds0, state0, param0, State.new,
    ModRangeInput.new, cnSingle, Rectangle.contains, DEFAULT_SCALAR,
    DEFAULT_MODIFIER_SCALAR, Modifiers.matchesKeys, Modifiers.default,
    Normal.fromRat, Normal.as_f32]

/-- Claim C9: every key-press or key-release event, in any state, sets
`pressed_modifiers` to the event's modifier snapshot, is marked Captured,
changes nothing else, and emits no callback. -/
theorem key_events_only_update_modifiers (w : ModRangeInput) (cn : ClickNew)
    (b : Rectangle) (pos : Point) (s : State) (m : Modifiers) :
    on_event w cn (Event.Keyboard (KeyboardEvent.KeyPressed m)) b pos s =
      ⟨{ s with pressed_modifiers := m }, [], Status.Captured⟩ ∧
    on_event w cn (Event.Keyboard (KeyboardEvent.KeyReleased m)) b pos s =
      ⟨{ s with pressed_modifiers := m }, [], Status.Captured⟩ :=
  ⟨rfl, rfl⟩

/-- Claim C10: a left press whose cursor position lies outside the widget
bounds is reported Ignored and leaves the whole state — including
`is_dragging` and `last_click` — unchanged, with no callback. -/
theorem out_of_bounds_press_ignored (w : ModRangeInput) (cn : ClickNew)
    (b : Rectangle) (pos : Point) (s : State)
    (hb : b.contains pos = false) :
    on_event w cn pressLeftEvent b pos s = ⟨s, [], Status.Ignored⟩ := by
  simp only [pressLeftEvent, on_event, hb, Bool.false_eq_true, if_false]

/-- Claim C10, witness: an out-of-bounds press at `(300, 300)` during an
active drag leaves the dragging state untouched and is Ignored. -/
theorem out_of_bounds_press_ignored_witness :
    on_event ModRangeInput.new cnSingle pressLeftEvent bounds0 ⟨300, 300⟩
      dragState0 = ⟨dragState0, [], Status.Ignored⟩ :=
  out_of_bounds_press_ignored ModRangeInput.new cnSingle bounds0 ⟨300, 300⟩
    dragState0 (by norm_num [bounds0, Rectangle.contains])

end IcedAudio
